import Mathlib

/-!
Shallow embedding of `src/nanobot/channels/voice_channel.py` (class
`VoiceChannel`): the audio capture / recognition / synthesis loop of the
nanobot Baidu voice channel.

Modelling conventions:
* A captured audio chunk (the value returned by `stream.read(self.chunk)`)
  is a list of byte values (`List Nat`, each entry `< 256` in reality).
  Python's `max(data)` on a `bytes` object is the maximum byte value.
* The stream produces 16-bit signed little-endian PCM samples
  (`pyaudio.paInt16`), so a sample `s` occupies two consecutive bytes
  `[u % 256, u / 256]` with `u = s mod 2^16`; `bytesOfSample` encodes this.
* Exceptions are modelled with `Except` / explicit outcome types; the
  source's `try/except` blocks become `match`es on those outcomes.
* External effects (provider calls, bus publications, stream writes,
  `asyncio.sleep` calls, stream closes) are recorded in trace structures.
-/

set_option autoImplicit false

namespace Nanobot

/-- A raw audio chunk: the byte values of one `stream.read(self.chunk)`. -/
abbrev Chunk := List Nat

/-- Python's `max` over the byte values of a chunk (`max(data)` in the
source, line 97).  Python raises on an empty bytes object; the capture
model treats the empty chunk separately, so the `0` default is never
relied on there. -/
def listMax (l : List Nat) : Nat := l.foldl max 0

/-- 16-bit little-endian two's-complement encoding of one PCM sample, as
produced by a `pyaudio.paInt16` input stream. -/
def bytesOfSample (s : Int) : Chunk :=
  let u := (s % 65536).toNat
  [u % 256, u / 256]

/-- Byte encoding of a whole list of 16-bit samples. -/
def bytesOfSamples (ss : List Int) : Chunk :=
  (ss.map bytesOfSample).flatten

/-- Number of chunk reads per capture window:
`int(self.rate / self.chunk * self.record_seconds)` =
`int(16000 / 1024 * 3)` = `int(46.875)` = 46 (source line 91). -/
def numChunks : Nat := 16000 * 3 / 1024

/-- Outcome of one `stream.read(self.chunk)` call: either data, or an
`IOError` carrying `e.args[0]`. -/
inductive ReadEvent where
  | ok (data : Chunk)
  | ioErr (code : Int)

/-- A Python exception escaping the capture `for` loop (source lines
91-106): a re-raised `IOError` (code ≠ -9981) or the `ValueError` that
`max(b'')` raises on an empty chunk. -/
inductive PyErr where
  | ioError (code : Int)
  | valueError

/-- The capture `for` loop of `_listen_for_audio` (source lines 91-106),
threading the `frames` accumulator and the `has_voice` flag.  Each `ok`
read appends its data to `frames` and then sets `has_voice` when
`max(data) > 100`; an `IOError` with code `-9981` is skipped
(`continue`); any other `IOError` is re-raised. -/
def capture : List ReadEvent → List Chunk → Bool → Except PyErr (List Chunk × Bool)
  | [], frames, hasVoice => .ok (frames, hasVoice)
  | .ok data :: rest, frames, hasVoice =>
    if data = [] then .error .valueError
    else capture rest (frames ++ [data]) (hasVoice || decide (100 < listMax data))
  | .ioErr code :: rest, frames, hasVoice =>
    if code = -9981 then capture rest frames hasVoice
    else .error (.ioError code)

/-- Environment of one iteration of the `while self._running` loop:
whether `self.p.open(...)` succeeds, the per-chunk read outcomes, and the
recognition result `recognize_speech` would return for a given byte
string. -/
structure CycleEnv where
  openOk : Bool
  reads : List ReadEvent
  recog : Chunk → Option String

/-- Observable trace of one loop iteration. -/
structure CycleTrace where
  /-- Arguments of the `client.asr` calls made this cycle. -/
  recogCalls : List Chunk
  /-- `(sender_id, chat_id, content)` of the `_handle_message` publications. -/
  events : List (String × String × String)
  /-- Durations of the `asyncio.sleep` calls, in order. -/
  sleeps : List ℚ
  /-- Whether the handler attempted `stop_stream` / `close` on the stream. -/
  closeAttempted : Bool
  /-- Whether the iteration took the `except Exception` branch. -/
  errored : Bool
  deriving DecidableEq

/-- One iteration of `_listen_for_audio` (source lines 76-139).
`streamSome` is whether `self.stream is not None` on entry: it is `False`
only until the first successful `p.open`, since neither the error handler
nor the success path ever resets `self.stream` to `None`.

If `p.open` raises, the `except Exception` handler runs with the old
stream value: only when `self.stream is not None` does it close the
stream and `await asyncio.sleep(1)` — with `self.stream` still `None`
nothing is closed and **no sleep happens**.  If capture raises, the
stream was just opened, so the handler closes it and sleeps 1.  Otherwise
the gate decides: on voice, `client.asr` is called once with
`b''.join(frames)` and a truthy transcript is published; the iteration
ends with `asyncio.sleep(0.5)`. -/
def runCycle (env : CycleEnv) (streamSome : Bool) : CycleTrace :=
  if env.openOk then
    match capture env.reads [] false with
    | .error _ =>
      { recogCalls := [], events := [], sleeps := [1],
        closeAttempted := true, errored := true }
    | .ok (frames, hasVoice) =>
      if hasVoice then
        let audio := frames.flatten
        match env.recog audio with
        | some t =>
          { recogCalls := [audio],
            events := [("voice_user", "voice_chat", t)],
            sleeps := [1/2], closeAttempted := false, errored := false }
        | none =>
          { recogCalls := [audio], events := [], sleeps := [1/2],
            closeAttempted := false, errored := false }
      else
        { recogCalls := [], events := [], sleeps := [1/2],
          closeAttempted := false, errored := false }
  else
    { recogCalls := [], events := [],
      sleeps := if streamSome then [1] else [],
      closeAttempted := streamSome, errored := true }

/-- What the scheduler delivers to one iteration of the listen loop:
either a `CancelledError` (raised by `ChannelFacade.stop` cancelling the
task at an await point), or an ordinary iteration with environment
`env`. -/
inductive LoopInput where
  | cancel
  | cycle (env : CycleEnv)

/-- Whether a loop input is the cancellation signal. -/
def LoopInput.isCancel : LoopInput → Bool
  | .cancel => true
  | .cycle _ => false

/-- The `while self._running` loop of `_listen_for_audio`, run over a
finite schedule of inputs, threading `self.stream is not None`.  Returns
the traces of the iterations that ran and whether the loop terminated by
the `except asyncio.CancelledError: break` branch. -/
def runLoop : List LoopInput → Bool → List CycleTrace × Bool
  | [], _ => ([], false)
  | .cancel :: _, _ => ([], true)
  | .cycle env :: rest, streamSome =>
    let r := runLoop rest (streamSome || env.openOk)
    (runCycle env streamSome :: r.1, r.2)

/-! ### Recognition (`recognize_speech`, source lines 141-160) -/

/-- The dict returned by `client.asr`, as far as `recognize_speech`
inspects it: `err_no`, `result` (a list of transcripts) and `err_msg`
may each be absent. -/
structure AsrResponse where
  err_no : Option Int
  result : Option (List String)
  err_msg : Option String

/-- Outcome of the `client.asr` call: a response dict, or an exception
(transport / protocol failure). -/
inductive AsrOutcome where
  | response (r : AsrResponse)
  | raised

/-- `recognize_speech` (source lines 141-160).  When `err_no == 0` it
returns `result.get('result')[0]`; a missing `result` (`None[0]`,
`TypeError`) or an empty list (`IndexError`) raises inside the same
`try`, is caught by `except Exception`, and falls through to
`return None`; a non-zero or missing `err_no` logs and returns `None`; an
exception from the call itself is caught and returns `None`.  The
function is total: no exception escapes it. -/
def recognize_speech (o : AsrOutcome) : Option String :=
  match o with
  | .raised => none
  | .response r =>
    if r.err_no = some 0 then
      match r.result with
      | some (t :: _) => some t
      | some [] => none
      | none => none
    else none

/-! ### Synthesis parameters (`synthesize_speech`, source lines 162-194) -/

/-- The voice-channel configuration attributes read by
`synthesize_speech` via `getattr(self.voice_config, name, default)`:
`none` models an absent attribute. -/
structure VoiceConfig where
  vol : Option Int
  tts_speed : Option ℚ
  pit : Option Int
  tts_voice_name : Option Int
  language : Option String

/-- The `params` dict passed verbatim to `client.synthesis`. -/
structure TTSParams where
  vol : Int
  spd : Int
  pit : Int
  per : Int
  deriving DecidableEq

/-- Python's `int(...)` truncation toward zero, on a rational. -/
def pyTrunc (q : ℚ) : Int := Int.tdiv q.num (q.den : Int)

/-- Construction of the `params` dict in `synthesize_speech` (source
lines 166-171): `vol` is `max(0, min(15, ...))`, `spd` is
`max(0, min(9, int(tts_speed * 5)))`, `pit` is `max(0, min(9, ...))`,
and `per` is `getattr(self.voice_config, 'tts_voice_name', 4)` with no
clamping.  `tts_speed` (a Python float) is modelled as a rational. -/
def synthesisParams (cfg : VoiceConfig) : TTSParams :=
  { vol := max 0 (min 15 (cfg.vol.getD 5))
    spd := max 0 (min 9 (pyTrunc (cfg.tts_speed.getD (4/5) * 5)))
    pit := max 0 (min 9 (cfg.pit.getD 5))
    per := cfg.tts_voice_name.getD 4 }

/-! ### Outbound path (`send` and `_play_audio`, source lines 56-72 and
196-210) -/

/-- The message argument of `send`: an object with a `content`
attribute, a plain Python string, or any other object (whose `str(...)`
representation is recorded). -/
inductive Msg where
  | obj (content : String)
  | str (s : String)
  | other (strRepr : String)

/-- `msg.content if hasattr(msg, 'content') else str(msg)` (source line
59); for a plain string `s`, `str(s) = s`. -/
def extractText : Msg → String
  | .obj c => c
  | .str s => s
  | .other r => r

/-- Outcome of the `client.synthesis` call inside `synthesize_speech`:
raw audio bytes (any non-dict result), an error dict, or a raised
exception. -/
inductive SynthOutcome where
  | bytes (d : List Nat)
  | errDict
  | raised

/-- `synthesize_speech`'s return value (source lines 162-194): a
non-dict provider result is returned as-is; a dict result logs the error
and falls through to `return None`; an exception is caught and falls
through to `return None`.  Total: never raises. -/
def synthesize_speech (o : SynthOutcome) : Option (List Nat) :=
  match o with
  | .bytes d => some d
  | .errDict => none
  | .raised => none

/-- Behaviour of the playback device during `_play_audio`: `p.open`
raises, or the `stream.write` call succeeds, or it raises. -/
inductive PlayOutcome where
  | openRaise
  | writeOk
  | writeRaise
  deriving DecidableEq

/-- The `stream.write` calls performed by `_play_audio` (source lines
196-210): none when `p.open` raises; exactly one with the full audio
data otherwise.  Every exception is caught by `_play_audio`'s own
`except Exception`, so `_play_audio` always returns normally. -/
def playWrites : PlayOutcome → List Nat → List (List Nat)
  | .openRaise, _ => []
  | .writeOk, d => [d]
  | .writeRaise, d => [d]

/-- Observable trace of one `send` call. -/
structure SendTrace where
  /-- The texts handed to `synthesize_speech`. -/
  synthCalls : List String
  /-- The byte strings handed to `stream.write` during playback. -/
  writeCalls : List (List Nat)
  /-- The boolean return value of `send`. -/
  ret : Bool
  deriving DecidableEq

/-- `send` (source lines 56-72): extracts the text, calls
`synthesize_speech` once, and tests the result for truthiness
(`if audio_data:`): `None` and the empty byte string are falsy and give
`return False`; otherwise `_play_audio` runs (swallowing any playback
failure) and `send` returns `True`.  The whole body sits under
`try/except Exception`, and every inner stage already catches its own
exceptions, so `send` always returns a boolean and never raises. -/
def send (m : Msg) (o : SynthOutcome) (p : PlayOutcome) : SendTrace :=
  let text := extractText m
  match synthesize_speech o with
  | some d =>
    if d = [] then { synthCalls := [text], writeCalls := [], ret := false }
    else { synthCalls := [text], writeCalls := playWrites p d, ret := true }
  | none => { synthCalls := [text], writeCalls := [], ret := false }

/-! ## Helper lemmas -/

/-- `List.foldl max` is bounded iff the seed and every element are. -/
lemma foldl_max_le_iff (l : List Nat) (a n : Nat) :
    List.foldl max a l ≤ n ↔ a ≤ n ∧ ∀ b ∈ l, b ≤ n := by
  induction l generalizing a with
  | nil => simp
  | cons x xs ih => simp [List.foldl_cons, ih, max_le_iff, and_assoc]

/-- `max(data) > n` iff some byte exceeds `n`. -/
lemma lt_listMax_iff (l : List Nat) (n : Nat) :
    n < listMax l ↔ ∃ b ∈ l, n < b := by
  rw [listMax, ← not_le, foldl_max_le_iff]
  push_neg
  simp [Nat.zero_le]

/-- Capture over successful reads never raises the gate flag when every
byte of every chunk is at most 100. -/
lemma capture_small (cs : List Chunk) (h : ∀ c ∈ cs, ∀ b ∈ c, b ≤ 100) :
    ∀ (frames : List Chunk) (hv : Bool) (frames' : List Chunk) (hv' : Bool),
      capture (cs.map ReadEvent.ok) frames hv = .ok (frames', hv') → hv' = hv := by
  induction cs with
  | nil =>
    intro frames hv frames' hv' hr
    simp [capture] at hr
    exact hr.2.symm
  | cons c cs ih =>
    intro frames hv frames' hv' hr
    by_cases hc : c = []
    · simp [capture, hc] at hr
    · have hd : decide (100 < listMax c) = false := by
        rw [decide_eq_false_iff_not, not_lt, listMax, foldl_max_le_iff]
        exact ⟨Nat.zero_le _, h c (List.mem_cons_self c cs)⟩
      rw [List.map_cons] at hr
      rw [capture, if_neg hc, hd, Bool.or_false] at hr
      exact ih (fun c' hc' => h c' (List.mem_cons_of_mem c hc')) _ _ _ _ hr

/-- Capture over successful reads of non-empty chunks: the frames are
appended in order and the gate flag records whether some chunk has a
byte above 100. -/
lemma capture_nonempty (cs : List Chunk) (h : ∀ c ∈ cs, c ≠ []) :
    ∀ (frames : List Chunk) (hv : Bool),
      capture (cs.map ReadEvent.ok) frames hv =
        .ok (frames ++ cs, hv || cs.any fun c => decide (100 < listMax c)) := by
  induction cs with
  | nil => intro frames hv; simp [capture]
  | cons c cs ih =>
    intro frames hv
    rw [List.map_cons, capture, if_neg (h c (List.mem_cons_self c cs)),
      ih (fun c' hc' => h c' (List.mem_cons_of_mem c hc'))]
    simp [Bool.or_assoc]

/-! ## Claims -/

/-- Counterexample to claim C1 as stated.  The window consisting of the
single 16-bit sample `-1` has maximum sample magnitude `1 ≤ 100`, yet its
little-endian byte encoding is `[255, 255]`, `max(data) = 255 > 100`
trips the gate (source line 97 takes `max` over raw *bytes*, not decoded
samples), and the cycle calls the recognition provider and publishes an
inbound event. -/
theorem gate_sample_magnitude_counterexample :
    (∀ c ∈ [[(-1 : Int)]], ∀ smp ∈ c, smp.natAbs ≤ 100) ∧
    (runCycle ⟨true, [ReadEvent.ok (bytesOfSamples [-1])], fun _ => some "hi"⟩
        true).recogCalls ≠ [] ∧
    (runCycle ⟨true, [ReadEvent.ok (bytesOfSamples [-1])], fun _ => some "hi"⟩
        true).events ≠ [] := by
  refine ⟨by decide, by decide, by decide⟩

/-- Claim C1 (amended): for every captured window whose maximum *raw
byte value* is at most the threshold 100 (the quantity `max(data)` that
line 97 actually inspects), the listen cycle makes no recognition call
and publishes no inbound event. -/
theorem gate_negative_no_call (window : List Chunk)
    (recog : Chunk → Option String) (s : Bool)
    (hsmall : ∀ c ∈ window, ∀ b ∈ c, b ≤ 100) :
    (runCycle ⟨true, window.map ReadEvent.ok, recog⟩ s).recogCalls = [] ∧
    (runCycle ⟨true, window.map ReadEvent.ok, recog⟩ s).events = [] := by
  cases h : capture (window.map ReadEvent.ok) [] false with
  | error e => simp [runCycle, h]
  | ok r =>
    obtain ⟨frames, hv⟩ := r
    have hfalse : hv = false := capture_small window hsmall [] false frames hv h
    subst hfalse
    simp [runCycle, h]

/-- Witness for `gate_negative_no_call` at the concrete all-quiet window
`[[100, 0]]` (the encoding of the single sample `100`). -/
theorem gate_negative_no_call_witness :
    (∀ c ∈ [[(100 : Nat), 0]], ∀ b ∈ c, b ≤ 100) ∧
    (runCycle ⟨true, [[(100 : Nat), 0]].map ReadEvent.ok, fun _ => some "hi"⟩
        true).recogCalls = [] ∧
    (runCycle ⟨true, [[(100 : Nat), 0]].map ReadEvent.ok, fun _ => some "hi"⟩
        true).events = [] :=
  ⟨by decide, gate_negative_no_call [[100, 0]] (fun _ => some "hi") true (by decide)⟩

/-- Counterexample to claim C2 as stated.  The window consisting of the
single 16-bit sample `300` has a sample magnitude above 100, but its
byte encoding is `[44, 1]`, `max(data) = 44 ≤ 100`, so the gate stays
negative and no recognition call is made. -/
theorem gate_positive_sample_counterexample :
    (∃ c ∈ [[(300 : Int)]], ∃ smp ∈ c, 100 < smp.natAbs) ∧
    (runCycle ⟨true, [ReadEvent.ok (bytesOfSamples [300])], fun _ => some "hi"⟩
        true).recogCalls = [] := by
  refine ⟨by decide, by decide⟩

/-- Claim C2 (amended): for every window of non-empty chunks containing
at least one *raw byte value* above the threshold 100 (the quantity
`max(data)` that line 97 actually inspects), the cycle makes exactly one
recognition call, passing the concatenation `b''.join(frames)` of all
the window's chunks. -/
theorem gate_positive_one_call (window : List Chunk)
    (recog : Chunk → Option String) (s : Bool)
    (hne : ∀ c ∈ window, c ≠ [])
    (hbig : ∃ c ∈ window, ∃ b ∈ c, 100 < b) :
    (runCycle ⟨true, window.map ReadEvent.ok, recog⟩ s).recogCalls =
      [window.flatten] := by
  have hcap := capture_nonempty window hne [] false
  have hany : (window.any fun c => decide (100 < listMax c)) = true := by
    rw [List.any_eq_true]
    obtain ⟨c, hc, b, hb, h100⟩ := hbig
    exact ⟨c, hc, by rw [decide_eq_true_iff]; exact (lt_listMax_iff c 100).2 ⟨b, hb, h100⟩⟩
  rw [hany, Bool.or_true] at hcap
  cases hrec : recog window.flatten <;>
    simp [runCycle, hcap, hrec]

/-- Witness for `gate_positive_one_call` at the concrete window
`[[200]]`. -/
theorem gate_positive_one_call_witness :
    (∀ c ∈ [[(200 : Nat)]], c ≠ []) ∧
    (∃ c ∈ [[(200 : Nat)]], ∃ b ∈ c, 100 < b) ∧
    (runCycle ⟨true, [[(200 : Nat)]].map ReadEvent.ok, fun _ => none⟩
        true).recogCalls = [[[(200 : Nat)]].flatten] :=
  ⟨by decide, by decide,
    gate_positive_one_call [[200]] (fun _ => none) true (by decide) (by decide)⟩

/-- Counterexample to claim C3 as stated.  With
`tts_voice_name = 99` configured, the `params` dict passed to
`client.synthesis` carries `per = 99`, outside the provider range 1-11
noted in the source's own comment: `per` is read by `getattr` with
default 4 but never clamped (source line 170). -/
theorem params_per_unclamped_counterexample :
    (synthesisParams ⟨some 5, some (4/5), some 5, some 99, none⟩).per = 99 ∧
    ¬ (synthesisParams ⟨some 5, some (4/5), some 5, some 99, none⟩).per ≤ 11 := by
  refine ⟨rfl, by decide⟩

/-- Claim C3 (amended): in the `params` dict passed to
`client.synthesis`, the volume is clamped to `[0, 15]`, the
speed-derived parameter and the pitch to `[0, 9]`; the voice-identity
parameter `per`, however, is passed through from the configuration
(default 4) with no clamping at all. -/
theorem params_clamped (cfg : VoiceConfig) :
    0 ≤ (synthesisParams cfg).vol ∧ (synthesisParams cfg).vol ≤ 15 ∧
    0 ≤ (synthesisParams cfg).spd ∧ (synthesisParams cfg).spd ≤ 9 ∧
    0 ≤ (synthesisParams cfg).pit ∧ (synthesisParams cfg).pit ≤ 9 ∧
    (synthesisParams cfg).per = cfg.tts_voice_name.getD 4 := by
  simp only [synthesisParams]
  refine ⟨le_max_left _ _, max_le (by norm_num) (min_le_left _ _),
    le_max_left _ _, max_le (by norm_num) (min_le_left _ _),
    le_max_left _ _, max_le (by norm_num) (min_le_left _ _), trivial⟩

/-- Counterexample to claim C4 as stated.  When synthesis succeeds with
one byte of audio but the playback device fails to open (a playback
failure: no `stream.write` ever runs), `send` still returns `True`,
because `_play_audio` swallows the exception (source lines 209-210) and
`send` has already committed to `return True`. -/
theorem send_playback_failure_counterexample :
    (send (.str "x") (.bytes [1]) .openRaise).ret = true ∧
    (send (.str "x") (.bytes [1]) .openRaise).writeCalls = [] := by
  refine ⟨rfl, rfl⟩

/-- Claim C4 (amended): `send` always returns a boolean and never raises
to its caller (every stage catches its own exceptions, and the whole
body sits under `try/except`); it returns `True` exactly when synthesis
produced a non-empty audio byte string — synthesis failure or an empty
synthesis result give `False`, but a playback failure is swallowed
inside `_play_audio` and `send` returns `True` regardless. -/
theorem send_returns_bool (m : Msg) (o : SynthOutcome) (p : PlayOutcome) :
    (send m o p).ret = true ↔
      ∃ d, synthesize_speech o = some d ∧ d ≠ [] := by
  cases o with
  | bytes d =>
    by_cases hd : d = [] <;> simp [send, synthesize_speech, hd]
  | errDict => simp [send, synthesize_speech]
  | raised => simp [send, synthesize_speech]

/-- Counterexample to claim C5 as stated: for `N = 0`, a synthesis stage
returning the empty byte string (a non-dict result) makes `send` return
`False` with no playback call, because `if audio_data:` treats `b''` as
falsy (source line 62). -/
theorem send_empty_bytes_counterexample :
    synthesize_speech (.bytes []) = some [] ∧
    (send (.str "hello") (.bytes []) .writeOk).ret = false ∧
    (send (.str "hello") (.bytes []) .writeOk).writeCalls = [] := by
  refine ⟨rfl, rfl, rfl⟩

/-- Claim C5 (amended): for every `N > 0`, if the synthesis stage
returns `N` raw audio bytes and the playback device functions, `send`
performs exactly one playback write call with exactly those bytes and
returns `True`; if the synthesis stage returns an error dict, `send`
returns `False` and performs no playback call; and for `N = 0` (empty
byte string) `send` returns `False` with no playback call. -/
theorem send_playback_bytes (m : Msg) (d : List Nat) (p : PlayOutcome)
    (hd : d ≠ []) :
    send m (.bytes d) .writeOk =
      { synthCalls := [extractText m], writeCalls := [d], ret := true } ∧
    send m .errDict p =
      { synthCalls := [extractText m], writeCalls := [], ret := false } ∧
    send m (.bytes []) p =
      { synthCalls := [extractText m], writeCalls := [], ret := false } := by
  refine ⟨?_, rfl, rfl⟩
  simp [send, synthesize_speech, playWrites, hd]

/-- Witness for `send_playback_bytes` with the one-byte audio result
`[0]` and the message `"hello"`. -/
theorem send_playback_bytes_witness :
    ([(0 : Nat)] ≠ []) ∧
    (send (.str "hello") (.bytes [0]) .writeOk =
      { synthCalls := ["hello"], writeCalls := [[0]], ret := true } ∧
    send (.str "hello") .errDict .writeOk =
      { synthCalls := ["hello"], writeCalls := [], ret := false } ∧
    send (.str "hello") (.bytes []) .writeOk =
      { synthCalls := ["hello"], writeCalls := [], ret := false }) :=
  ⟨by decide, send_playback_bytes (.str "hello") [0] .writeOk (by decide)⟩

/-- Claim C6: `recognize_speech` returns the first element of the result
list when the error code is 0 and the list is non-empty; it returns
`None` when the error code is non-zero or missing, when the result is
empty or missing (the internal `IndexError` / `TypeError` is caught by
the surrounding `except`), and when the provider call raises; it never
raises past its boundary (the model is a total function). -/
theorem recognize_cases (t : String) (ts : List String) (m : Option String)
    (e : Option Int) (res : Option (List String)) (he : e ≠ some 0) :
    recognize_speech (.response ⟨some 0, some (t :: ts), m⟩) = some t ∧
    recognize_speech (.response ⟨e, res, m⟩) = none ∧
    recognize_speech (.response ⟨some 0, some [], m⟩) = none ∧
    recognize_speech (.response ⟨some 0, none, m⟩) = none ∧
    recognize_speech .raised = none := by
  refine ⟨rfl, ?_, rfl, rfl, rfl⟩
  simp [recognize_speech, he]

/-- Witness for `recognize_cases` at a concrete response with error code
1. -/
theorem recognize_cases_witness :
    (some (1 : Int) ≠ some 0) ∧
    (recognize_speech (.response ⟨some 0, some ("a" :: []), none⟩) = some "a" ∧
    recognize_speech (.response ⟨some 1, none, none⟩) = none ∧
    recognize_speech (.response ⟨some 0, some [], none⟩) = none ∧
    recognize_speech (.response ⟨some 0, none, none⟩) = none ∧
    recognize_speech .raised = none) :=
  ⟨by decide, recognize_cases "a" [] none (some 1) none (by decide)⟩

/-- Counterexample to claim C7 as stated.  On a cycle where `p.open`
raises while `self.stream` is still `None` (as on the very first
iteration), the `except` handler's `asyncio.sleep(1)` is skipped —
it sits inside `if self.stream is not None:` (source lines 133-139) —
so the loop retries immediately with no delay at all. -/
theorem cycle_no_delay_counterexample :
    (runCycle ⟨false, [], fun _ => none⟩ false).errored = true ∧
    (runCycle ⟨false, [], fun _ => none⟩ false).sleeps = [] := by
  refine ⟨rfl, rfl⟩

/-- Claim C7 (amended): every iteration of the listen loop ends with a
fixed delay (`sleep(0.5)` on the capture branches, `sleep(1)` on the
failure branches) before the next cycle — except in exactly one case: a
failure on a cycle where no capture stream has ever been opened
(`self.stream` still `None`, e.g. a first-cycle device-open failure), in
which case the loop retries immediately with no delay. -/
theorem cycle_delay_iff (env : CycleEnv) (s : Bool) :
    (runCycle env s).sleeps = [] ↔ (env.openOk = false ∧ s = false) := by
  obtain ⟨o, reads, recog⟩ := env
  cases o with
  | false => cases s <;> simp [runCycle]
  | true =>
    cases h : capture reads [] false with
    | error e => simp [runCycle, h]
    | ok r =>
      obtain ⟨frames, hv⟩ := r
      cases hv with
      | false => simp [runCycle, h]
      | true => cases hrec : recog frames.flatten <;> simp [runCycle, h, hrec]

/-- Claim C8: the listen loop terminates exactly on the cancellation
signal (the `except asyncio.CancelledError: break` branch, reached when
`stop` cancels the task); every non-cancelled iteration before the first
cancellation runs to completion regardless of errors; and an iteration
that takes the `except Exception` branch attempts to close the capture
stream exactly when the stream handle is set (`self.stream is not
None`, i.e. it was set on entry or this cycle's open succeeded). -/
theorem loop_terminates_only_on_cancel :
    (∀ (inputs : List LoopInput) (s : Bool),
      ((runLoop inputs s).2 = true ↔ LoopInput.cancel ∈ inputs) ∧
      (runLoop inputs s).1.length =
        (inputs.takeWhile fun i => ! i.isCancel).length) ∧
    (∀ (env : CycleEnv) (s : Bool), (runCycle env s).errored = true →
      (runCycle env s).closeAttempted = (s || env.openOk)) := by
  constructor
  · intro inputs
    induction inputs with
    | nil => intro s; simp [runLoop]
    | cons i rest ih =>
      intro s
      cases i with
      | cancel => simp [runLoop, LoopInput.isCancel]
      | cycle env =>
        refine ⟨?_, ?_⟩
        · rw [runLoop]
          simp [(ih (s || env.openOk)).1]
        · rw [runLoop]
          simp [LoopInput.isCancel, (ih (s || env.openOk)).2]
  · intro env s herr
    obtain ⟨o, reads, recog⟩ := env
    cases o with
    | false => simp [runCycle]
    | true =>
      cases h : capture reads [] false with
      | error e => simp [runCycle, h]
      | ok r =>
        exfalso
        obtain ⟨frames, hv⟩ := r
        cases hv with
        | false => simp [runCycle, h] at herr
        | true =>
          cases hrec : recog frames.flatten <;>
            simp [runCycle, h, hrec] at herr

/-- Witness for `loop_terminates_only_on_cancel`: the stream-closing
clause applied to a concrete failing cycle with the stream handle set. -/
theorem loop_terminates_only_on_cancel_witness :
    (runCycle ⟨false, [], fun _ => none⟩ true).errored = true ∧
    (runCycle ⟨false, [], fun _ => none⟩ true).closeAttempted = (true || false) :=
  ⟨rfl, loop_terminates_only_on_cancel.2 ⟨false, [], fun _ => none⟩ true rfl⟩

/-- Claim C9: an input-overflow `IOError` with code `-9981` raised by a
chunk read is treated as a dropped frame: the capture of the window is
exactly as if that read had not happened — nothing is appended, the
remaining chunks are still captured, and the overflow never escapes the
capture loop (source lines 101-104). -/
theorem overflow_dropped_frame (pre post : List ReadEvent)
    (frames : List Chunk) (hv : Bool) :
    capture (pre ++ ReadEvent.ioErr (-9981) :: post) frames hv =
      capture (pre ++ post) frames hv := by
  induction pre generalizing frames hv with
  | nil => simp [capture]
  | cons e rest ih =>
    cases e with
    | ok data =>
      by_cases hd : data = [] <;> simp [capture, hd, ih]
    | ioErr code =>
      by_cases hc : code = -9981 <;> simp [capture, hc, ih]

/-- Claim C10: the text handed to the synthesis stage by `send` is
`msg.content` for an object with a `content` attribute and `str(msg)`
otherwise; in particular a plain string `s` is synthesized exactly as
`s`. -/
theorem send_text_extraction (c s r : String) (o : SynthOutcome)
    (p : PlayOutcome) :
    (send (.obj c) o p).synthCalls = [c] ∧
    (send (.str s) o p).synthCalls = [s] ∧
    (send (.other r) o p).synthCalls = [r] := by
  refine ⟨?_, ?_, ?_⟩ <;>
    cases o <;>
    first
      | rfl
      | (rename_i d
         by_cases hd : d = [] <;> simp [send, synthesize_speech, extractText, hd])

end Nanobot
